import Mathlib

/-!
# Temporal Market Window Resolver — verification development

Shallow embedding of the slug codec / window resolver of the
`BTC_data_prob_study` repository (files
`src/cotationsLogger/polymarket_logger.js`,
`src/cotationsScrapper/polymarket_logger.js`, `src/unnamed/part_001`,
`src/unnamed/part_002`).

Instants are modelled as whole seconds since the Unix epoch (`Int`); every
instant the JavaScript code constructs or compares is at second granularity.
The civil-time converter models `Intl.DateTimeFormat` with
`timeZone: 'America/New_York'`: the proleptic Gregorian calendar together
with the post-2007 US daylight-saving rule (EDT from the second Sunday of
March 07:00 UTC to the first Sunday of November 06:00 UTC, offsets −4h/−5h).
`new Date(isoStringWithOffset)` is modelled by `fromISO` (returning `none`
for an out-of-range calendar date, i.e. a JS `Invalid Date`), and the places
where the source builds a `Date` from civil components in the *server's*
zone (`new Date(y, m-1, d, ...)`) are modelled with the server clock at UTC,
the common deployment for such collectors.
-/

namespace BtcStudy

/-- A civil (wall-clock) time: calendar date plus time of day. -/
structure Civil where
  year : Int
  month : Nat
  day : Nat
  hour : Nat
  minute : Nat
  second : Nat
  deriving DecidableEq, Repr

/-- Days since 1970-01-01 of a civil date (proleptic Gregorian; Hinnant's
`days_from_civil`).  Like the JavaScript `Date` component constructor, it is
total: a `day` beyond the month's length simply rolls into the following
month. -/
def daysFromCivil (y : Int) (m d : Nat) : Int :=
  let y1 : Int := if m ≤ 2 then y - 1 else y
  let era : Int := y1 / 400
  let yoe : Nat := (y1 - era * 400).toNat
  let mp : Nat := if 2 < m then m - 3 else m + 9
  let doy : Nat := (153 * mp + 2) / 5 + d - 1
  let doe : Nat := yoe * 365 + yoe / 4 - yoe / 100 + doy
  era * 146097 + (doe : Int) - 719468

/-- Civil date (year, month, day) of a count of days since 1970-01-01
(Hinnant's `civil_from_days`). -/
def civilFromDays (z : Int) : Int × Nat × Nat :=
  let z1 : Int := z + 719468
  let era : Int := z1 / 146097
  let doe : Nat := (z1 - era * 146097).toNat
  let yoe : Nat := (doe - doe / 1460 + doe / 36524 - doe / 146096) / 365
  let y : Int := (yoe : Int) + era * 400
  let doy : Nat := doe - (365 * yoe + yoe / 4 - yoe / 100)
  let mp : Nat := (5 * doy + 2) / 153
  let d : Nat := doy - (153 * mp + 2) / 5 + 1
  let m : Nat := if mp < 10 then mp + 3 else mp - 9
  (if m ≤ 2 then y + 1 else y, m, d)

/-- Breakdown of an instant (seconds since epoch) into UTC civil components. -/
def civilOfSecs (t : Int) : Civil :=
  let days : Int := t / 86400
  let sod : Nat := (t % 86400).toNat
  let ymd := civilFromDays days
  ⟨ymd.1, ymd.2.1, ymd.2.2, sod / 3600, sod % 3600 / 60, sod % 60⟩

/-- Seconds since epoch of UTC civil components. -/
def civilSecsUTC (y : Int) (m d h mi s : Nat) : Int :=
  daysFromCivil y m d * 86400 + (h * 3600 + mi * 60 + s : Nat)

/-- Leap-year test (Gregorian). -/
def isLeap (y : Int) : Bool := y % 4 == 0 && (y % 100 != 0 || y % 400 == 0)

/-- Length of a (1-based) month, as `new Date(y, m, 0).getDate()` yields. -/
def daysInMonth (y : Int) (m : Nat) : Nat :=
  if m = 1 then 31 else if m = 2 then (if isLeap y then 29 else 28)
  else if m = 3 then 31 else if m = 4 then 30 else if m = 5 then 31
  else if m = 6 then 30 else if m = 7 then 31 else if m = 8 then 31
  else if m = 9 then 30 else if m = 10 then 31 else if m = 11 then 30
  else if m = 12 then 31 else 0

/-- Day count of the second Sunday of March of a year.  1970-01-01 was a
Thursday, so `(days + 4) % 7 = 0` exactly on Sundays. -/
def secondSundayMarch (y : Int) : Int :=
  let m1 : Int := daysFromCivil y 3 1
  let dow : Int := (m1 + 4) % 7
  m1 + (7 - dow) % 7 + 7

/-- Day count of the first Sunday of November of a year. -/
def firstSundayNov (y : Int) : Int :=
  let n1 : Int := daysFromCivil y 11 1
  let dow : Int := (n1 + 4) % 7
  n1 + (7 - dow) % 7

/-- Instant at which daylight-saving time starts (2:00 EST = 07:00 UTC on
the second Sunday of March). -/
def dstStartSecs (y : Int) : Int := secondSundayMarch y * 86400 + 25200

/-- Instant at which daylight-saving time ends (2:00 EDT = 06:00 UTC on the
first Sunday of November). -/
def dstEndSecs (y : Int) : Int := firstSundayNov y * 86400 + 21600

/-- UTC calendar year of an instant. -/
def utcYear (t : Int) : Int := (civilFromDays (t / 86400)).1

/-- Whether `America/New_York` observes daylight-saving time at an instant
(`Intl` reporting `EDT` rather than `EST`). -/
def nyIsDST (t : Int) : Bool :=
  decide (dstStartSecs (utcYear t) ≤ t) && decide (t < dstEndSecs (utcYear t))

/-- UTC offset (seconds) of `America/New_York` at an instant. -/
def nyOffsetSecs (t : Int) : Int := if nyIsDST t then -14400 else -18000

/-- ET civil components of an instant, as `Intl.DateTimeFormat` with
`timeZone: 'America/New_York'`, `hour12: false` produces them. -/
def toCivilNY (t : Int) : Civil := civilOfSecs (t + nyOffsetSecs t)

/-- The 12-hour clock value shown for a 24-hour value (`toLocaleString`
US default format: 12, 1, …, 11). -/
def hour12Of (h : Nat) : Nat := if h % 12 = 0 then 12 else h % 12

/-- ET civil components with the hour on the 12-hour clock, as the source's
regex over `date.toLocaleString('en-US', { timeZone: 'America/New_York' })`
extracts them (the AM/PM marker is *not* captured by that regex). -/
def toCivil12NY (t : Int) : Civil :=
  let c := toCivilNY t
  ⟨c.year, c.month, c.day, hour12Of c.hour, c.minute, c.second⟩

/-- Model of `new Date("YYYY-MM-DDTHH:MI:SS±04:00/±05:00")`: the instant denoted by an
ET civil string with an explicit offset, `none` when the string is an invalid
date (JS `Invalid Date`).  ES permits hour 24 with zero minutes/seconds. -/
def fromISO (y : Int) (m d h mi s : Nat) (edt : Bool) : Option Int :=
  if 1 ≤ m ∧ m ≤ 12 ∧ 1 ≤ d ∧ d ≤ daysInMonth y m ∧ mi ≤ 59 ∧ s ≤ 59 ∧
      (h ≤ 23 ∨ (h = 24 ∧ mi = 0 ∧ s = 0)) then
    some (civilSecsUTC y m d h mi s + (if edt then 14400 else 18000))
  else none

/-! ## Assets, cadences, slug grammar primitives

The slug grammars are given in the source as JavaScript regexes applied with
`String.prototype.match` (unanchored: the pattern may match at any position,
leftmost position first, alternatives in order with backtracking).  They are
modelled here as explicit scanners over the slug's character list. -/

/-- The tracked assets. -/
inductive Asset | BTC | ETH | SOL | XRP
  deriving DecidableEq, Repr

/-- The lowercase ticker used in slugs (`asset.toLowerCase()`). -/
def shortNameStr : Asset → String
  | .BTC => "btc" | .ETH => "eth" | .SOL => "sol" | .XRP => "xrp"

/-- The long name used in slugs (the source's `fullNames` map). -/
def fullNameStr : Asset → String
  | .BTC => "bitcoin" | .ETH => "ethereum" | .SOL => "solana" | .XRP => "xrp"

/-- The three cadences. -/
inductive Timeframe | m15 | h1 | daily
  deriving DecidableEq, Repr

/-- A decoded slug: the source's `{ timeframe, timestamp }` object.  A
`timestamp` of `none` models a JavaScript `Invalid Date` stored in the
result. -/
structure ParsedSlug where
  timeframe : Timeframe
  timestamp : Option Int
  deriving DecidableEq, Repr

/-- Match a literal character sequence, returning the remainder. -/
def dropLit : List Char → List Char → Option (List Char)
  | [], l => some l
  | _ :: _, [] => none
  | p :: ps, c :: cs => if p = c then dropLit ps cs else none

/-- ASCII digit test. -/
def isDigitCh (c : Char) : Bool := '0' ≤ c && c ≤ '9'

/-- ASCII lowercase-letter test (the regexes use `[a-z]`). -/
def isLowerCh (c : Char) : Bool := 'a' ≤ c && c ≤ 'z'

/-- Numeric value of a digit string (`parseInt` on a matched `\d+` group). -/
def natOfDigits (l : List Char) : Nat :=
  l.foldl (fun a c => a * 10 + (c.toNat - '0'.toNat)) 0

/-- Greedy match of one or more digits (`(\d+)`), returning the parsed value
and the remainder. -/
def digits1 (l : List Char) : Option (Nat × List Char) :=
  let ds := l.takeWhile isDigitCh
  if ds.isEmpty then none else some (natOfDigits ds, l.dropWhile isDigitCh)

/-- Match of exactly `k` digits (`(\d{k})`). -/
def digitsExact (k : Nat) (l : List Char) : Option (Nat × List Char) :=
  let ds := l.take k
  if ds.length = k && ds.all isDigitCh then some (natOfDigits ds, l.drop k)
  else none

/-- Greedy match of one or more lowercase letters (`([a-z]+)`). -/
def lower1 (l : List Char) : Option (List Char × List Char) :=
  let ls := l.takeWhile isLowerCh
  if ls.isEmpty then none else some (ls, l.dropWhile isLowerCh)

/-- Unanchored regex search: try the pattern at each position, leftmost
first (the semantics of JavaScript `slug.match(pattern)`). -/
def scanL (f : List Char → Option α) : List Char → Option α
  | [] => f []
  | c :: cs =>
    match f (c :: cs) with
    | some v => some v
    | none => scanL f cs

/-- The cadence-tag alternation `(15m|1h|1d)`, alternatives in order. -/
def tfTagAt (l : List Char) : Option (Timeframe × List Char) :=
  match dropLit ['1', '5', 'm'] l with
  | some r => some (.m15, r)
  | none =>
    match dropLit ['1', 'h'] l with
    | some r => some (.h1, r)
    | none => (dropLit ['1', 'd'] l).map (fun r => (.daily, r))

/-- Tail of the epoch grammar after the asset name:
`-updown-(15m|1h|1d)-(\d+)`. -/
def unixTailAt (l : List Char) : Option (Timeframe × Nat) := do
  let r1 ← dropLit "-updown-".data l
  let (tf, r2) ← tfTagAt r1
  let r3 ← dropLit ['-'] r2
  let (n, _) ← digits1 r3
  pure (tf, n)

/-- Asset-name alternation `(short|full)` followed by a tail, with the
backtracking a regex engine performs when the short name matches but the
tail does not (needed for `sol`/`solana`, `eth`/`ethereum`). -/
def assetAltAt (short full : List Char) (tail : List Char → Option α)
    (l : List Char) : Option α :=
  match (dropLit short l).bind tail with
  | some v => some v
  | none => (dropLit full l).bind tail

/-- The epoch-grammar regex `(short|full)-updown-(15m|1h|1d)-(\d+)`. -/
def matchUnix (short full slug : List Char) : Option (Timeframe × Nat) :=
  scanL (assetAltAt short full unixTailAt) slug

/-- Tail of the daily-text grammar: `-up-or-down-on-([a-z]+)-(\d+)`. -/
def dailyTailAt (l : List Char) : Option (List Char × Nat) := do
  let r1 ← dropLit "-up-or-down-on-".data l
  let (mn, r2) ← lower1 r1
  let r3 ← dropLit ['-'] r2
  let (d, _) ← digits1 r3
  pure (mn, d)

/-- The daily-text regex `(short|full)-up-or-down-on-([a-z]+)-(\d+)`. -/
def matchDaily (short full slug : List Char) : Option (List Char × Nat) :=
  scanL (assetAltAt short full dailyTailAt) slug

/-- Tail of the hourly-text grammar:
`-up-or-down-([a-z]+)-(\d+)-(\d+)(am|pm)-et`; yields the month name, day,
raw 12-hour value and whether the marker was `pm`. -/
def h1TailAt (l : List Char) : Option (List Char × Nat × Nat × Bool) := do
  let r1 ← dropLit "-up-or-down-".data l
  let (mn, r2) ← lower1 r1
  let r3 ← dropLit ['-'] r2
  let (d, r4) ← digits1 r3
  let r5 ← dropLit ['-'] r4
  let (h, r6) ← digits1 r5
  let (pm, r7) ←
    match dropLit ['a', 'm'] r6 with
    | some r => some (false, r)
    | none => (dropLit ['p', 'm'] r6).map (fun r => (true, r))
  let _ ← dropLit "-et".data r7
  pure (mn, d, h, pm)

/-- The hourly-text regex
`(short|full)-up-or-down-([a-z]+)-(\d+)-(\d+)(am|pm)-et`. -/
def matchH1 (short full slug : List Char) :
    Option (List Char × Nat × Nat × Bool) :=
  scanL (assetAltAt short full h1TailAt) slug

/-- Legacy numeric m15 tail: `-updown-15m-(\d{4})-(\d{2})-(\d{2})-(\d{2})-(\d{2})`
(year, month, day, hour, minute).  The legacy regexes use only the short
asset name. -/
def legacyM15TailAt (l : List Char) : Option (Nat × Nat × Nat × Nat × Nat) := do
  let r1 ← dropLit "-updown-15m-".data l
  let (y, r2) ← digitsExact 4 r1
  let r3 ← dropLit ['-'] r2
  let (mo, r4) ← digitsExact 2 r3
  let r5 ← dropLit ['-'] r4
  let (d, r6) ← digitsExact 2 r5
  let r7 ← dropLit ['-'] r6
  let (h, r8) ← digitsExact 2 r7
  let r9 ← dropLit ['-'] r8
  let (mi, _) ← digitsExact 2 r9
  pure (y, mo, d, h, mi)

/-- Legacy numeric h1 tail: `-updown-1h-(\d{4})-(\d{2})-(\d{2})-(\d{2})`. -/
def legacyH1TailAt (l : List Char) : Option (Nat × Nat × Nat × Nat) := do
  let r1 ← dropLit "-updown-1h-".data l
  let (y, r2) ← digitsExact 4 r1
  let r3 ← dropLit ['-'] r2
  let (mo, r4) ← digitsExact 2 r3
  let r5 ← dropLit ['-'] r4
  let (d, r6) ← digitsExact 2 r5
  let r7 ← dropLit ['-'] r6
  let (h, _) ← digitsExact 2 r7
  pure (y, mo, d, h)

/-- Legacy numeric daily tail: `-updown-1d-(\d{4})-(\d{2})-(\d{2})`. -/
def legacyDailyTailAt (l : List Char) : Option (Nat × Nat × Nat) := do
  let r1 ← dropLit "-updown-1d-".data l
  let (y, r2) ← digitsExact 4 r1
  let r3 ← dropLit ['-'] r2
  let (mo, r4) ← digitsExact 2 r3
  let r5 ← dropLit ['-'] r4
  let (d, _) ← digitsExact 2 r5
  pure (y, mo, d)

/-- Leftmost match of a short-name-anchored legacy tail. -/
def matchLegacy (tail : List Char → Option α) (short slug : List Char) :
    Option α :=
  scanL (fun l => (dropLit short l).bind tail) slug

/-- English month name of a 1-based month number (the `MONTHS` array). -/
def monthNameStr : Nat → String
  | 1 => "january" | 2 => "february" | 3 => "march" | 4 => "april"
  | 5 => "may" | 6 => "june" | 7 => "july" | 8 => "august"
  | 9 => "september" | 10 => "october" | 11 => "november" | 12 => "december"
  | _ => ""

/-- Month number of an English month name (the `MONTHS` lookup object;
unrecognized names yield `none`, on which the source returns `null`). -/
def monthNumOf (l : List Char) : Option Nat :=
  if l = "january".data then some 1 else if l = "february".data then some 2
  else if l = "march".data then some 3 else if l = "april".data then some 4
  else if l = "may".data then some 5 else if l = "june".data then some 6
  else if l = "july".data then some 7 else if l = "august".data then some 8
  else if l = "september".data then some 9
  else if l = "october".data then some 10
  else if l = "november".data then some 11
  else if l = "december".data then some 12
  else none

/-- 12-hour → 24-hour conversion of the hourly-text grammar
(`pm` adds 12 below 12; `12am` becomes 0). -/
def hour24Of (hourRaw : Nat) (isPM : Bool) : Nat :=
  if isPM then (if hourRaw < 12 then hourRaw + 12 else hourRaw)
  else (if hourRaw = 12 then 0 else hourRaw)

/-! ## Decoders

Four generations share these grammars.  `cotationsLogger/polymarket_logger.js`
is the latest; `cotationsScrapper/polymarket_logger.js` differs in the epoch
branch (direct timestamp) and in the year-inference comparison;
`src/unnamed/part_001` parses only the epoch grammar; `src/unnamed/part_002`
only the legacy numeric grammar. -/

/-- The epoch-branch timestamp reconstruction of
`cotationsLogger/polymarket_logger.js` lines 72-105: ET components of the
embedded instant are extracted, the EST/EDT choice is probed at the instant
whose *UTC* reading equals those components (`Date.UTC(etYear, ...)`), and
the instant is rebuilt from an ISO string with that offset (seconds are
dropped: the ISO string ends `:00`). -/
def loggerUnixTimestamp (n : Nat) : Option Int :=
  let c := toCivilNY (n : Int)
  let probe := civilSecsUTC c.year c.month c.day c.hour c.minute 0
  fromISO c.year c.month c.day c.hour c.minute 0 (nyIsDST probe)

/-- Year inference of the logger's text grammars (lines 136-151 and
203-213): compare only the encoded (month, day) against today's civil
(month, day) in ET; a past month/day selects next year, a same or future
one the current year. -/
def inferYearLogger (nowY : Int) (nowMo nowD m d : Nat) : Int :=
  if m < nowMo ∨ (m = nowMo ∧ d < nowD) then nowY + 1
  else if m = nowMo ∧ d = nowD then nowY
  else nowY

/-- Timestamp of a daily-text slug: midnight ET of the date, offset probed
at the instant `new Date(year, m-1, d, 0, 0, 0)` builds (server clock
modelled at UTC). -/
def dailyTextTimestamp (y : Int) (m d : Nat) : Option Int :=
  fromISO y m d 0 0 0 (nyIsDST (civilSecsUTC y m d 0 0 0))

/-- Timestamp of an hourly-text slug: the encoded hour ET, offset probed at
the instant `new Date(year, m-1, d, h, 0, 0)` builds (server clock modelled
at UTC). -/
def hourlyTextTimestamp (y : Int) (m d h24 : Nat) : Option Int :=
  fromISO y m d h24 0 0 (nyIsDST (civilSecsUTC y m d h24 0 0))

/-- The legacy branch's DST probe `new Date("YYYY-MM-DDT12:00:00Z")` plus
`formatToParts`: noon UTC of the encoded date.  On an out-of-range date the
string parses to an Invalid Date and `formatToParts` throws a RangeError;
that exception is modelled as a parse failure (no theorem relies on it). -/
def legacyNoonDST (y : Int) (mo d : Nat) : Option Bool :=
  if 1 ≤ mo ∧ mo ≤ 12 ∧ 1 ≤ d ∧ d ≤ daysInMonth y mo then
    some (nyIsDST (civilSecsUTC y mo d 12 0 0))
  else none

/-- The legacy numeric branch, textually identical in
`cotationsLogger/polymarket_logger.js` lines 227-270,
`cotationsScrapper/polymarket_logger.js` lines 168-211 and
`src/unnamed/part_002` lines 44-93 (where it is the whole of `parseSlug`):
patterns tried in insertion order m15, h1, daily; the encoded civil instant
is interpreted in ET (noon-UTC DST probe) and the cadence duration is
*added* (`setMinutes(+15)` / `setHours(+1)`); the daily pattern uses
23:59:59 of the encoded date. -/
def parseLegacyBranch (slug : String) (asset : Asset) : Option ParsedSlug :=
  let sh := (shortNameStr asset).data
  match matchLegacy legacyM15TailAt sh slug.data with
  | some (y, mo, d, h, mi) =>
    match legacyNoonDST (y : Int) mo d with
    | none => none
    | some edt => some ⟨.m15, (fromISO (y : Int) mo d h mi 0 edt).map (· + 900)⟩
  | none =>
  match matchLegacy legacyH1TailAt sh slug.data with
  | some (y, mo, d, h) =>
    match legacyNoonDST (y : Int) mo d with
    | none => none
    | some edt => some ⟨.h1, (fromISO (y : Int) mo d h 0 0 edt).map (· + 3600)⟩
  | none =>
  match matchLegacy legacyDailyTailAt sh slug.data with
  | some (y, mo, d) =>
    match legacyNoonDST (y : Int) mo d with
    | none => none
    | some edt => some ⟨.daily, fromISO (y : Int) mo d 23 59 59 edt⟩
  | none => none

/-- The function `parseSlug` of `cotationsLogger/polymarket_logger.js` (lines 47-271),
with the ET civil *date* of the hidden `new Date()` read made explicit (the
only components of "now" the function consults are year, month and day). -/
def parseSlugLoggerCore (slug : String) (asset : Asset) (nowY : Int)
    (nowMo nowD : Nat) : Option ParsedSlug :=
  let sh := (shortNameStr asset).data
  let fl := (fullNameStr asset).data
  match matchUnix sh fl slug.data with
  | some (tf, n) => some ⟨tf, loggerUnixTimestamp n⟩
  | none =>
  match matchDaily sh fl slug.data with
  | some (mn, d) =>
    match monthNumOf mn with
    | none => none
    | some m =>
      some ⟨.daily, dailyTextTimestamp (inferYearLogger nowY nowMo nowD m d) m d⟩
  | none =>
  match matchH1 sh fl slug.data with
  | some (mn, d, hraw, pm) =>
    match monthNumOf mn with
    | none => none
    | some m =>
      some ⟨.h1, hourlyTextTimestamp (inferYearLogger nowY nowMo nowD m d) m d
        (hour24Of hraw pm)⟩
  | none => parseLegacyBranch slug asset

/-- The function `parseSlug` of `cotationsLogger/polymarket_logger.js`, taking the
instant of its internal `new Date()` as an explicit argument. -/
def parseSlugLogger (slug : String) (asset : Asset) (now : Int) :
    Option ParsedSlug :=
  parseSlugLoggerCore slug asset (toCivilNY now).year (toCivilNY now).month
    (toCivilNY now).day

/-- The `candidateET < nowET` comparison of the scrapper's text branches:
both sides are `new Date(...)` values built from civil components in the
server's zone, so the comparison is the lexicographic order on the
component tuples (exact except inside the server zone's fall-back hour,
where two distinct tuples can denote one instant). -/
def candLtNow (a b : Civil) : Bool :=
  if a.year ≠ b.year then decide (a.year < b.year)
  else if a.month ≠ b.month then decide (a.month < b.month)
  else if a.day ≠ b.day then decide (a.day < b.day)
  else if a.hour ≠ b.hour then decide (a.hour < b.hour)
  else if a.minute ≠ b.minute then decide (a.minute < b.minute)
  else decide (a.second < b.second)

/-- The function `parseSlug` of `cotationsScrapper/polymarket_logger.js` (lines 47-212),
with the civil reading of the hidden `new Date()` made explicit.  The epoch
branch returns the embedded timestamp directly
(`new Date(unixTimestamp * 1000)`).  The text branches compare the full
candidate instant (at hour 0 for daily, at the encoded hour for hourly)
against now — whose hour the `toLocaleString` regex captures on the
*12-hour* clock. -/
def parseSlugScrapperCore (slug : String) (asset : Asset) (nc : Civil) :
    Option ParsedSlug :=
  let sh := (shortNameStr asset).data
  let fl := (fullNameStr asset).data
  match matchUnix sh fl slug.data with
  | some (tf, n) => some ⟨tf, some (n : Int)⟩
  | none =>
  match matchDaily sh fl slug.data with
  | some (mn, d) =>
    match monthNumOf mn with
    | none => none
    | some m =>
      let y := if candLtNow ⟨nc.year, m, d, 0, 0, 0⟩ nc then nc.year + 1
               else nc.year
      some ⟨.daily, dailyTextTimestamp y m d⟩
  | none =>
  match matchH1 sh fl slug.data with
  | some (mn, d, hraw, pm) =>
    match monthNumOf mn with
    | none => none
    | some m =>
      let h24 := hour24Of hraw pm
      let y := if candLtNow ⟨nc.year, m, d, h24, 0, 0⟩ nc then nc.year + 1
               else nc.year
      some ⟨.h1, hourlyTextTimestamp y m d h24⟩
  | none => parseLegacyBranch slug asset

/-- The function `parseSlug` of `cotationsScrapper/polymarket_logger.js`, taking the
instant of its internal `new Date()` as an explicit argument. -/
def parseSlugScrapper (slug : String) (asset : Asset) (now : Int) :
    Option ParsedSlug :=
  parseSlugScrapperCore slug asset (toCivil12NY now)

/-- The function `parseSlug` of `src/unnamed/part_001` (lines 13-27): epoch grammar
only, short asset name only, the result carrying just the timestamp
`new Date(unixTimestamp * 1000)`. -/
def parseSlugPart1 (slug : String) (asset : Asset) : Option Int :=
  (scanL (fun l => (dropLit (shortNameStr asset).data l).bind unixTailAt)
    slug.data).map (fun p => (p.2 : Int))

/-- The function `parseSlug` of `src/unnamed/part_002` (lines 44-93): the legacy numeric
grammar is its only grammar (the code is character-identical to the legacy
branch of the two later generations). -/
def parseSlugPart2 (slug : String) (asset : Asset) : Option ParsedSlug :=
  parseLegacyBranch slug asset

/-! ## Encoder and containment check (cotationsLogger) -/

/-- The unix payload the m15 encoder embeds
(`generateExpectedSlug`, lines 398-415): ET civil components of now with
the minute floored to a multiple of 15, EST/EDT probed at the instant whose
UTC reading equals those components, instant rebuilt from the ISO string
with that offset.  (The civil components come from `toCivilNY`, hence
always form a valid date, so the ISO string never yields an Invalid
Date.) -/
def m15SlugTs (now : Int) : Int :=
  let c := toCivilNY now
  let f := c.minute / 15 * 15
  let base := civilSecsUTC c.year c.month c.day c.hour f 0
  base + (if nyIsDST base then 14400 else 18000)

/-- The function `generateExpectedSlug` of `cotationsLogger/polymarket_logger.js`
(lines 345-433): m15 emits the epoch grammar with a floored minute; h1
emits the hourly-text grammar for the current hour; daily emits the
daily-text grammar, with the day advanced by one (`targetD++`, no calendar
carry) when the ET hour is ≥ 12. -/
def generateExpectedSlugLogger (asset : Asset) (tf : Timeframe) (now : Int) :
    String :=
  let c := toCivilNY now
  match tf with
  | .m15 => shortNameStr asset ++ "-updown-15m-" ++ toString (m15SlugTs now)
  | .h1 =>
    let hr12 := if c.hour = 0 then 12 else if 12 < c.hour then c.hour - 12
                else c.hour
    let ampm := if c.hour < 12 then "am" else "pm"
    fullNameStr asset ++ "-up-or-down-" ++ monthNameStr c.month ++ "-" ++
      toString c.day ++ "-" ++ toString hr12 ++ ampm ++ "-et"
  | .daily =>
    let d := if 12 ≤ c.hour then c.day + 1 else c.day
    fullNameStr asset ++ "-up-or-down-on-" ++ monthNameStr c.month ++ "-" ++
      toString d

/-- The function `isActiveMarket`, identical in `cotationsLogger/polymarket_logger.js`
(lines 439-505) and `cotationsScrapper/polymarket_logger.js` (lines
370-426): `[false, null]` for an absent parse; otherwise both instants are
broken into ET components and compared per cadence (daily compares against
the day advanced by one past noon, wrapped to 1 past the month's length
with the month left unchanged).  A stored Invalid Date would make
`formatToParts` throw; that is modelled as `none`.  The `asset` parameter
only feeds debug logging. -/
def isActiveMarket (parsed : Option ParsedSlug) (asset : Asset)
    (tf : Timeframe) (now : Int) : Option (Bool × Option Int) :=
  match parsed with
  | none => some (false, none)
  | some p =>
    match p.timestamp with
    | none => none
    | some ts =>
      let n := toCivilNY now
      let m := toCivilNY ts
      let ok : Bool :=
        match tf with
        | .m15 =>
          n.year == m.year && n.month == m.month && n.day == m.day &&
            n.hour == m.hour && decide (m.minute ≤ n.minute) &&
            decide (n.minute < m.minute + 15)
        | .h1 =>
          n.year == m.year && n.month == m.month && n.day == m.day &&
            n.hour == m.hour
        | .daily =>
          let expD := if 12 ≤ n.hour then
              (if daysInMonth n.year n.month < n.day + 1 then 1 else n.day + 1)
            else n.day
          n.year == m.year && n.month == m.month && expD == m.day
      some (ok, some ts)

/-- Calendar sanity: epoch origin, a leap day, and a recent date. -/
theorem calendar_sanity :
    civilFromDays 0 = (1970, 1, 1) ∧ daysFromCivil 1970 1 1 = 0 ∧
    daysFromCivil 2024 2 29 = 19782 ∧ civilFromDays 19782 = (2024, 2, 29) ∧
    daysFromCivil 2025 11 2 = 20394 ∧ civilFromDays 20394 = (2025, 11, 2) := by
  decide

/-- DST sanity for 2025: the transitions fall on 2025-03-09 07:00 UTC and
2025-11-02 06:00 UTC, matching the published US rule. -/
theorem dst_sanity_2025 :
    dstStartSecs 2025 = civilSecsUTC 2025 3 9 7 0 0 ∧
    dstEndSecs 2025 = civilSecsUTC 2025 11 2 6 0 0 ∧
    nyIsDST (civilSecsUTC 2025 7 1 12 0 0) = true ∧
    nyIsDST (civilSecsUTC 2025 1 15 12 0 0) = false := by
  decide

/-! ## Helper lemmas -/

/-- The minute component of a breakdown depends only on the instant
modulo one hour. -/
theorem civilOfSecs_minute (t : Int) :
    (civilOfSecs t).minute = (t % 3600).toNat / 60 := by
  simp only [civilOfSecs]
  omega

/-- Both ET offsets are whole hours, so the ET minute also depends only on
the instant modulo one hour. -/
theorem toCivilNY_minute (t : Int) :
    (toCivilNY t).minute = (t % 3600).toNat / 60 := by
  unfold toCivilNY nyOffsetSecs
  split <;> (rw [civilOfSecs_minute]; omega)

/-- The ET minute is a valid minute. -/
theorem toCivilNY_minute_lt (t : Int) : (toCivilNY t).minute < 60 := by
  rw [toCivilNY_minute]; omega

/-- DST transitions happen at 06:00/07:00 UTC, so the DST status is constant
between a UTC midnight and five hours past it. -/
theorem nyIsDST_shift (D p : Int) (h0 : 0 ≤ p) (h1 : p ≤ 18000) :
    nyIsDST (D * 86400 + p) = nyIsDST (D * 86400) := by
  have hy : utcYear (D * 86400 + p) = utcYear (D * 86400) := by
    unfold utcYear
    have e1 : (D * 86400 + p) / 86400 = D := by omega
    have e2 : D * 86400 / 86400 = D := by omega
    rw [e1, e2]
  unfold nyIsDST
  rw [hy]
  unfold dstStartSecs dstEndSecs
  congr 1
  · rw [decide_eq_decide]; omega
  · rw [decide_eq_decide]; omega

/-- A UTC midnight shifted into the zone by the offset probed at that same
midnight lands back on the midnight breakdown: the probe cannot straddle a
transition. -/
theorem toCivilNY_offset_round (D : Int) :
    toCivilNY (D * 86400 + (if nyIsDST (D * 86400) then 14400 else 18000)) =
      civilOfSecs (D * 86400) := by
  have hs : nyIsDST (D * 86400 + (if nyIsDST (D * 86400) then 14400 else 18000)) =
      nyIsDST (D * 86400) := by
    cases h : nyIsDST (D * 86400) with
    | false => simpa [h] using nyIsDST_shift D 18000 (by omega) (by omega)
    | true => simpa [h] using nyIsDST_shift D 14400 (by omega) (by omega)
  unfold toCivilNY nyOffsetSecs
  rw [hs]
  congr 1
  cases h : nyIsDST (D * 86400) <;> simp [h]

/-- Time-of-day components of a UTC midnight. -/
theorem civilOfSecs_day_tod (D : Int) :
    (civilOfSecs (D * 86400)).hour = 0 ∧ (civilOfSecs (D * 86400)).minute = 0 ∧
    (civilOfSecs (D * 86400)).second = 0 := by
  simp only [civilOfSecs]
  omega

/-- At midnight, `civilSecsUTC` is a whole number of days. -/
theorem civilSecsUTC_midnight (y : Int) (m d : Nat) :
    civilSecsUTC y m d 0 0 0 = daysFromCivil y m d * 86400 := by
  simp [civilSecsUTC]

/-! ## Claim theorems -/

/-- C10: for every asset, cadence and instant, invoking the containment
check with an absent (null) decoded descriptor returns the pair
`[false, null]` rather than throwing. -/
theorem C10_isActive_none (asset : Asset) (tf : Timeframe) (now : Int) :
    isActiveMarket none asset tf now = some (false, none) := rfl

/-- C8: an identifier that matches both the epoch grammar and the legacy
numeric grammar decodes to the epoch grammar's result — the epoch branch is
tried first and wins. -/
theorem C8_epoch_beats_legacy (slug : String) (asset : Asset) (now : Int)
    (tf : Timeframe) (n : Nat)
    (hu : matchUnix (shortNameStr asset).data (fullNameStr asset).data
      slug.data = some (tf, n))
    (hl : (matchLegacy legacyM15TailAt (shortNameStr asset).data
        slug.data).isSome ∨
      (matchLegacy legacyH1TailAt (shortNameStr asset).data slug.data).isSome ∨
      (matchLegacy legacyDailyTailAt (shortNameStr asset).data
        slug.data).isSome) :
    parseSlugLogger slug asset now = some ⟨tf, loggerUnixTimestamp n⟩ := by
  unfold parseSlugLogger parseSlugLoggerCore
  simp only [hu]

/-- Witness for C8 at the contrived fixture
`btc-updown-15m-2025-11-02-13-30`, which matches the epoch grammar (payload
`2025`) and the legacy m15 grammar. -/
theorem C8_epoch_beats_legacy_witness :
    matchUnix "btc".data "bitcoin".data
      "btc-updown-15m-2025-11-02-13-30".data = some (.m15, 2025) ∧
    (matchLegacy legacyM15TailAt "btc".data
      "btc-updown-15m-2025-11-02-13-30".data).isSome ∧
    parseSlugLogger "btc-updown-15m-2025-11-02-13-30" .BTC 0 =
      some ⟨.m15, loggerUnixTimestamp 2025⟩ := by
  refine ⟨by decide, by decide, ?_⟩
  exact C8_epoch_beats_legacy _ _ _ _ _ (by decide) (Or.inl (by decide))

/-- C7 counterexample: decoding the same daily-text identifier with the
same asset at two wall-clock instants on different sides of the encoded
(month, day) yields different descriptors (year inference reads the
clock), so decode is not a function of identifier and asset alone. -/
theorem C7_decode_clock_dependent_cex :
    parseSlugLogger "bitcoin-up-or-down-on-march-5" .BTC
        (civilSecsUTC 2025 1 10 12 0 0) =
      some ⟨.daily, some 1741150800⟩ ∧
    parseSlugLogger "bitcoin-up-or-down-on-march-5" .BTC
        (civilSecsUTC 2025 12 1 12 0 0) =
      some ⟨.daily, some 1772686800⟩ ∧
    (1741150800 : Int) ≠ 1772686800 := by
  decide

/-- C7 amended: decode is not a function of identifier and asset alone
(see the counterexample), and the clock dependence differs per generation:
the logger's decode depends on the invocation instant only through its ET
calendar date, so same-date invocations agree; the scrapper's decode
depends on the full ET civil reading (hour on the 12-hour clock), so
invocations with identical readings agree, but even same-date invocations
can differ — the hourly 10am identifier for November 4 decoded at 09:30
and at 11:30 ET of 2025-11-04 yields years 2025 and 2026. -/
theorem C7_decode_determinism_per_generation :
    (∀ (slug : String) (asset : Asset) (t1 t2 : Int),
      (toCivilNY t1).year = (toCivilNY t2).year →
      (toCivilNY t1).month = (toCivilNY t2).month →
      (toCivilNY t1).day = (toCivilNY t2).day →
      parseSlugLogger slug asset t1 = parseSlugLogger slug asset t2) ∧
    (∀ (slug : String) (asset : Asset) (t1 t2 : Int),
      toCivil12NY t1 = toCivil12NY t2 →
      parseSlugScrapper slug asset t1 = parseSlugScrapper slug asset t2) ∧
    (toCivilNY (civilSecsUTC 2025 11 4 14 30 0) = ⟨2025, 11, 4, 9, 30, 0⟩ ∧
     toCivilNY (civilSecsUTC 2025 11 4 16 30 0) = ⟨2025, 11, 4, 11, 30, 0⟩ ∧
     parseSlugScrapper "bitcoin-up-or-down-november-4-10am-et" .BTC
         (civilSecsUTC 2025 11 4 14 30 0) =
       some ⟨.h1, some 1762268400⟩ ∧
     parseSlugScrapper "bitcoin-up-or-down-november-4-10am-et" .BTC
         (civilSecsUTC 2025 11 4 16 30 0) =
       some ⟨.h1, some 1793804400⟩ ∧
     hourlyTextTimestamp 2025 11 4 10 = some 1762268400 ∧
     hourlyTextTimestamp 2026 11 4 10 = some 1793804400 ∧
     (1762268400 : Int) ≠ 1793804400) := by
  refine ⟨?_, ?_, by decide⟩
  · intro slug asset t1 t2 hy hm hd
    unfold parseSlugLogger
    rw [hy, hm, hd]
  · intro slug asset t1 t2 h
    unfold parseSlugScrapper
    rw [h]

/-- Witness for C7: for the logger, two distinct instants of 2025-01-10 ET
decode the same daily-text identifier identically; for the scrapper, the
two distinct instants of the repeated fall-back reading 2025-11-02
01:30:00 ET decode identically. -/
theorem C7_decode_determinism_per_generation_witness :
    parseSlugLogger "bitcoin-up-or-down-on-march-5" .BTC
        (civilSecsUTC 2025 1 10 12 0 0) =
      parseSlugLogger "bitcoin-up-or-down-on-march-5" .BTC
        (civilSecsUTC 2025 1 10 23 30 0) ∧
    parseSlugScrapper "bitcoin-up-or-down-november-4-10am-et" .BTC
        (civilSecsUTC 2025 11 2 5 30 0) =
      parseSlugScrapper "bitcoin-up-or-down-november-4-10am-et" .BTC
        (civilSecsUTC 2025 11 2 6 30 0) := by
  constructor
  · exact C7_decode_determinism_per_generation.1 _ _ _ _ (by decide)
      (by decide) (by decide)
  · exact C7_decode_determinism_per_generation.2.1 _ _ _ _ (by decide)

/-- C1: the round trip fails at the claimed DST coverage.  At
2025-03-09 03:10 ET (the morning of the spring-forward transition) the m15
encoder emits `btc-updown-15m-1741507200` (04:00 ET, one hour late: the
EST/EDT probe uses the instant whose UTC reading equals the civil
components, still pre-transition); decoding shifts by another hour to
05:00 ET, and the containment check on the decoded descriptor returns
false — the claim requires start = 03:00 ET and containment true. -/
theorem C1_roundtrip_dst_failure :
    toCivilNY (civilSecsUTC 2025 3 9 7 10 0) = ⟨2025, 3, 9, 3, 10, 0⟩ ∧
    generateExpectedSlugLogger .BTC .m15 (civilSecsUTC 2025 3 9 7 10 0) =
      "btc-updown-15m-1741507200" ∧
    parseSlugLogger
        (generateExpectedSlugLogger .BTC .m15 (civilSecsUTC 2025 3 9 7 10 0))
        .BTC (civilSecsUTC 2025 3 9 7 10 0) =
      some ⟨.m15, some 1741510800⟩ ∧
    toCivilNY 1741510800 = ⟨2025, 3, 9, 5, 0, 0⟩ ∧
    isActiveMarket (some ⟨.m15, some 1741510800⟩) .BTC .m15
        (civilSecsUTC 2025 3 9 7 10 0) =
      some (false, some 1741510800) := by
  decide

/-- C2: the daily encoder does not carry the date across a month end.  At
2025-11-30 12:00 ET it emits `bitcoin-up-or-down-on-november-31`
(`targetD++` with no calendar increment) instead of a December 1 label, and
the containment check rejects the true December 1 window (it wraps the day
to 1 but keeps the month at 11), so encoder and container both diverge
from the claimed effective-trading-date rule. -/
theorem C2_daily_month_end_no_carry :
    toCivilNY (civilSecsUTC 2025 11 30 17 0 0) = ⟨2025, 11, 30, 12, 0, 0⟩ ∧
    generateExpectedSlugLogger .BTC .daily (civilSecsUTC 2025 11 30 17 0 0) =
      "bitcoin-up-or-down-on-november-31" ∧
    dailyTextTimestamp 2025 12 1 = some 1764565200 ∧
    toCivilNY 1764565200 = ⟨2025, 12, 1, 0, 0, 0⟩ ∧
    isActiveMarket (some ⟨.daily, some 1764565200⟩) .BTC .daily
        (civilSecsUTC 2025 11 30 17 0 0) =
      some (false, some 1764565200) := by
  decide

/-- C4 counterexample: the logger's epoch decode is not a direct
interpretation of the embedded integer.  `btc-updown-15m-1741503600`
embeds 2025-03-09 07:00:00 UTC (the spring-forward instant); the logger's
civil round trip through the ET components returns 08:00 UTC instead. -/
theorem C4_logger_not_direct_cex :
    parseSlugLogger "btc-updown-15m-1741503600" .BTC 0 =
      some ⟨.m15, some 1741507200⟩ ∧
    parseSlugLogger "btc-updown-15m-1741503600" .BTC 0 ≠
      some ⟨.m15, some 1741503600⟩ := by
  decide

/-- C4 amended: the scrapper's and part_001's decoders interpret the epoch
payload directly — for every identifier matching the epoch grammar the
returned start is exactly the embedded integer, independent of the
invocation instant (the logger's decoder instead reconstructs the instant
through an ET civil round trip, which drops seconds and can shift the
result by an hour around a DST transition). -/
theorem C4_epoch_direct_decoders (slug : String) (asset : Asset)
    (now : Int) (tf : Timeframe) (n : Nat) (q : Timeframe × Nat)
    (hu : matchUnix (shortNameStr asset).data (fullNameStr asset).data
      slug.data = some (tf, n))
    (hp : scanL (fun l => (dropLit (shortNameStr asset).data l).bind
      unixTailAt) slug.data = some q) :
    parseSlugScrapper slug asset now = some ⟨tf, some (n : Int)⟩ ∧
    parseSlugPart1 slug asset = some ((q.2 : Nat) : Int) := by
  constructor
  · unfold parseSlugScrapper parseSlugScrapperCore
    simp only [hu]
  · unfold parseSlugPart1
    rw [hp]
    rfl

/-- Witness for C4 at `btc-updown-15m-1762104600`. -/
theorem C4_epoch_direct_decoders_witness :
    parseSlugScrapper "btc-updown-15m-1762104600" .BTC 0 =
      some ⟨.m15, some 1762104600⟩ ∧
    parseSlugPart1 "btc-updown-15m-1762104600" .BTC = some 1762104600 := by
  have h := C4_epoch_direct_decoders "btc-updown-15m-1762104600" .BTC 0
    .m15 1762104600 (.m15, 1762104600) (by decide) (by decide)
  exact ⟨h.1, h.2⟩

/-- The year-inference rule exactly as the claim states it: a (month, day)
strictly earlier than today's (lexicographically) selects next year;
today's or a later one selects the current year — no dependence on the
encoded hour or the current time of day. -/
def specInferYear (nowY : Int) (nowMo nowD m d : Nat) : Int :=
  if m < nowMo ∨ (m = nowMo ∧ d < nowD) then nowY + 1 else nowY

/-- The logger's three-way year choice coincides with the claim's rule. -/
theorem inferYearLogger_eq_spec (nowY : Int) (nowMo nowD m d : Nat) :
    inferYearLogger nowY nowMo nowD m d = specInferYear nowY nowMo nowD m d := by
  unfold inferYearLogger specInferYear
  split
  · rfl
  · split <;> rfl

/-- C5 counterexample: the scrapper's decoder violates the claimed rule.
On 2025-11-04 at 10:30 ET, the identifier `bitcoin-up-or-down-on-november-4`
— whose (month, day) equals today's — decodes to November 4 of *2026*
(the comparison uses the full candidate instant, midnight, which is already
past), not the current year as the claim requires. -/
theorem C5_scrapper_same_day_cex :
    toCivilNY (civilSecsUTC 2025 11 4 15 30 0) = ⟨2025, 11, 4, 10, 30, 0⟩ ∧
    parseSlugScrapper "bitcoin-up-or-down-on-november-4" .BTC
        (civilSecsUTC 2025 11 4 15 30 0) =
      some ⟨.daily, some 1793768400⟩ ∧
    dailyTextTimestamp 2026 11 4 = some 1793768400 ∧
    dailyTextTimestamp 2025 11 4 = some 1762232400 ∧
    (1793768400 : Int) ≠ 1762232400 := by
  decide

/-- C5 amended: the *logger's* decoder implements the claimed rule for both
text grammars: the inferred year is `specInferYear` of the civil (month,
day) against today's ET date — next year iff strictly earlier, the current
year on equality regardless of the encoded hour or the time of day. -/
theorem C5_logger_year_inference (slug : String) (asset : Asset) (now : Int) :
    (∀ mn d m,
      matchUnix (shortNameStr asset).data (fullNameStr asset).data
        slug.data = none →
      matchDaily (shortNameStr asset).data (fullNameStr asset).data
        slug.data = some (mn, d) →
      monthNumOf mn = some m →
      parseSlugLogger slug asset now = some ⟨.daily,
        dailyTextTimestamp (specInferYear (toCivilNY now).year
          (toCivilNY now).month (toCivilNY now).day m d) m d⟩) ∧
    (∀ mn d hraw pm m,
      matchUnix (shortNameStr asset).data (fullNameStr asset).data
        slug.data = none →
      matchDaily (shortNameStr asset).data (fullNameStr asset).data
        slug.data = none →
      matchH1 (shortNameStr asset).data (fullNameStr asset).data
        slug.data = some (mn, d, hraw, pm) →
      monthNumOf mn = some m →
      parseSlugLogger slug asset now = some ⟨.h1,
        hourlyTextTimestamp (specInferYear (toCivilNY now).year
          (toCivilNY now).month (toCivilNY now).day m d) m d
          (hour24Of hraw pm)⟩) := by
  constructor
  · intro mn d m hu hD hM
    unfold parseSlugLogger parseSlugLoggerCore
    simp only [hu, hD, hM, inferYearLogger_eq_spec]
  · intro mn d hraw pm m hu hD hH hM
    unfold parseSlugLogger parseSlugLoggerCore
    simp only [hu, hD, hH, hM, inferYearLogger_eq_spec]

/-- Witness for C5: a daily-text and an hourly-text identifier decoded on
2025-01-10 ET. -/
theorem C5_logger_year_inference_witness :
    parseSlugLogger "bitcoin-up-or-down-on-march-5" .BTC
        (civilSecsUTC 2025 1 10 12 0 0) =
      some ⟨.daily, dailyTextTimestamp (specInferYear 2025 1 10 3 5) 3 5⟩ ∧
    parseSlugLogger "bitcoin-up-or-down-november-4-12pm-et" .BTC
        (civilSecsUTC 2025 1 10 12 0 0) =
      some ⟨.h1, hourlyTextTimestamp (specInferYear 2025 1 10 11 4) 11 4
        (hour24Of 12 true)⟩ := by
  constructor
  · have h := (C5_logger_year_inference "bitcoin-up-or-down-on-march-5" .BTC
      (civilSecsUTC 2025 1 10 12 0 0)).1 "march".data 5 3
      (by decide) (by decide) (by decide)
    rw [h]
    norm_num [show (toCivilNY (civilSecsUTC 2025 1 10 12 0 0)) =
      ⟨2025, 1, 10, 7, 0, 0⟩ from by decide]
  · have h := (C5_logger_year_inference "bitcoin-up-or-down-november-4-12pm-et"
      .BTC (civilSecsUTC 2025 1 10 12 0 0)).2 "november".data 4 12 true 11
      (by decide) (by decide) (by decide) (by decide)
    rw [h]
    norm_num [show (toCivilNY (civilSecsUTC 2025 1 10 12 0 0)) =
      ⟨2025, 1, 10, 7, 0, 0⟩ from by decide]

/-- C6 counterexample: decode does not subtract the cadence duration from a
legacy identifier.  For `btc-updown-15m-2025-06-15-13-30` (encoded civil
instant 13:30 EDT = 1750008600), the claim predicts start 13:15 EDT
(1750007700); the legacy-only generation returns 13:45 EDT (1750009500 =
encoded + 15 min), and the full decoders never even reach the legacy branch
(the epoch grammar captures the year digits as payload `2025`). -/
theorem C6_legacy_cex :
    parseSlugPart2 "btc-updown-15m-2025-06-15-13-30" .BTC =
      some ⟨.m15, some (1750008600 + 900)⟩ ∧
    parseSlugPart2 "btc-updown-15m-2025-06-15-13-30" .BTC ≠
      some ⟨.m15, some (1750008600 - 900)⟩ ∧
    parseSlugLogger "btc-updown-15m-2025-06-15-13-30" .BTC 0 =
      some ⟨.m15, some 1980⟩ := by
  decide

/-- C6 amended: the legacy numeric decoder treats the encoded civil instant
as the window *start* and returns it *plus* the cadence duration (15 min
for m15, 1 h for h1; the daily pattern returns 23:59:59 of the encoded
day); moreover in the full decoders the legacy grammar is shadowed by the
epoch grammar.  Stated on `parseSlugPart2`, the generation whose whole
decoder is this shared legacy branch, over every matching identifier with
an in-range civil instant. -/
theorem C6_legacy_adds_duration (slug : String) (asset : Asset) :
    (∀ y mo d h mi,
      matchLegacy legacyM15TailAt (shortNameStr asset).data slug.data =
        some (y, mo, d, h, mi) →
      1 ≤ mo → mo ≤ 12 → 1 ≤ d → d ≤ daysInMonth (y : Int) mo → h ≤ 23 →
      mi ≤ 59 →
      parseSlugPart2 slug asset = some ⟨.m15,
        some (civilSecsUTC (y : Int) mo d h mi 0 +
          (if nyIsDST (civilSecsUTC (y : Int) mo d 12 0 0) then 14400
           else 18000) + 900)⟩) ∧
    (∀ y mo d h,
      matchLegacy legacyM15TailAt (shortNameStr asset).data slug.data =
        none →
      matchLegacy legacyH1TailAt (shortNameStr asset).data slug.data =
        some (y, mo, d, h) →
      1 ≤ mo → mo ≤ 12 → 1 ≤ d → d ≤ daysInMonth (y : Int) mo → h ≤ 23 →
      parseSlugPart2 slug asset = some ⟨.h1,
        some (civilSecsUTC (y : Int) mo d h 0 0 +
          (if nyIsDST (civilSecsUTC (y : Int) mo d 12 0 0) then 14400
           else 18000) + 3600)⟩) ∧
    (∀ y mo d,
      matchLegacy legacyM15TailAt (shortNameStr asset).data slug.data =
        none →
      matchLegacy legacyH1TailAt (shortNameStr asset).data slug.data =
        none →
      matchLegacy legacyDailyTailAt (shortNameStr asset).data slug.data =
        some (y, mo, d) →
      1 ≤ mo → mo ≤ 12 → 1 ≤ d → d ≤ daysInMonth (y : Int) mo →
      parseSlugPart2 slug asset = some ⟨.daily,
        some (civilSecsUTC (y : Int) mo d 23 59 59 +
          (if nyIsDST (civilSecsUTC (y : Int) mo d 12 0 0) then 14400
           else 18000))⟩) := by
  refine ⟨?_, ?_, ?_⟩
  · intro y mo d h mi hm hmo1 hmo2 hd1 hd2 hh hmi
    have hnoon : legacyNoonDST (y : Int) mo d =
        some (nyIsDST (civilSecsUTC (y : Int) mo d 12 0 0)) := by
      unfold legacyNoonDST
      rw [if_pos ⟨hmo1, hmo2, hd1, hd2⟩]
    have hiso : fromISO (y : Int) mo d h mi 0
        (nyIsDST (civilSecsUTC (y : Int) mo d 12 0 0)) =
        some (civilSecsUTC (y : Int) mo d h mi 0 +
          (if nyIsDST (civilSecsUTC (y : Int) mo d 12 0 0) then 14400
           else 18000)) := by
      unfold fromISO
      rw [if_pos ⟨hmo1, hmo2, hd1, hd2, by omega, by omega, Or.inl hh⟩]
    unfold parseSlugPart2 parseLegacyBranch
    simp only [hm, hnoon, hiso, Option.map_some']
  · intro y mo d h hm0 hm hmo1 hmo2 hd1 hd2 hh
    have hnoon : legacyNoonDST (y : Int) mo d =
        some (nyIsDST (civilSecsUTC (y : Int) mo d 12 0 0)) := by
      unfold legacyNoonDST
      rw [if_pos ⟨hmo1, hmo2, hd1, hd2⟩]
    have hiso : fromISO (y : Int) mo d h 0 0
        (nyIsDST (civilSecsUTC (y : Int) mo d 12 0 0)) =
        some (civilSecsUTC (y : Int) mo d h 0 0 +
          (if nyIsDST (civilSecsUTC (y : Int) mo d 12 0 0) then 14400
           else 18000)) := by
      unfold fromISO
      rw [if_pos ⟨hmo1, hmo2, hd1, hd2, by omega, by omega, Or.inl hh⟩]
    unfold parseSlugPart2 parseLegacyBranch
    simp only [hm0, hm, hnoon, hiso, Option.map_some']
  · intro y mo d hm0 hh0 hm hmo1 hmo2 hd1 hd2
    have hnoon : legacyNoonDST (y : Int) mo d =
        some (nyIsDST (civilSecsUTC (y : Int) mo d 12 0 0)) := by
      unfold legacyNoonDST
      rw [if_pos ⟨hmo1, hmo2, hd1, hd2⟩]
    have hiso : fromISO (y : Int) mo d 23 59 59
        (nyIsDST (civilSecsUTC (y : Int) mo d 12 0 0)) =
        some (civilSecsUTC (y : Int) mo d 23 59 59 +
          (if nyIsDST (civilSecsUTC (y : Int) mo d 12 0 0) then 14400
           else 18000)) := by
      unfold fromISO
      rw [if_pos ⟨hmo1, hmo2, hd1, hd2, by omega, by omega, Or.inl (by omega)⟩]
    unfold parseSlugPart2 parseLegacyBranch
    simp only [hm0, hh0, hm, hnoon, hiso]

/-- Witness for C6 on one slug per legacy pattern. -/
theorem C6_legacy_adds_duration_witness :
    parseSlugPart2 "btc-updown-15m-2025-06-15-13-30" .BTC = some ⟨.m15,
      some (civilSecsUTC 2025 6 15 13 30 0 +
        (if nyIsDST (civilSecsUTC 2025 6 15 12 0 0) then 14400 else 18000) +
        900)⟩ ∧
    parseSlugPart2 "btc-updown-1h-2025-06-15-13" .BTC = some ⟨.h1,
      some (civilSecsUTC 2025 6 15 13 0 0 +
        (if nyIsDST (civilSecsUTC 2025 6 15 12 0 0) then 14400 else 18000) +
        3600)⟩ ∧
    parseSlugPart2 "btc-updown-1d-2025-06-15" .BTC = some ⟨.daily,
      some (civilSecsUTC 2025 6 15 23 59 59 +
        (if nyIsDST (civilSecsUTC 2025 6 15 12 0 0) then 14400
         else 18000))⟩ := by
  refine ⟨?_, ?_, ?_⟩
  · exact (C6_legacy_adds_duration "btc-updown-15m-2025-06-15-13-30" .BTC).1
      2025 6 15 13 30 (by decide) (by decide) (by decide) (by decide)
      (by decide) (by decide) (by decide)
  · exact (C6_legacy_adds_duration "btc-updown-1h-2025-06-15-13" .BTC).2.1
      2025 6 15 13 (by decide) (by decide) (by decide) (by decide)
      (by decide) (by decide) (by decide)
  · exact (C6_legacy_adds_duration "btc-updown-1d-2025-06-15" .BTC).2.2
      2025 6 15 (by decide) (by decide) (by decide) (by decide) (by decide)
      (by decide) (by decide)

/-- Spec-side definition: the absolute instant denoted by an ET civil time —
its base seconds plus the UTC offset in force at the instant itself, probed
via the civil time's standard-time (EST) reading.  Away from the
transitions this is the unique instant with that civil reading; an
ambiguous fall-back reading resolves to standard time. -/
def specAbsInstantNY (c : Civil) : Int :=
  let base := civilSecsUTC c.year c.month c.day c.hour c.minute c.second
  base + (if nyIsDST (base + 18000) then 14400 else 18000)

/-- An ET civil time with the minute floored to the nearest multiple of 15
and the seconds dropped — the m15 bucket start of a civil time. -/
def floorCivil15 (c : Civil) : Civil :=
  ⟨c.year, c.month, c.day, c.hour, c.minute / 15 * 15, 0⟩

/-- C3 counterexample: the embedded integer is not always the absolute
instant of the floored civil time.  At civil 03:47 ET on 2025-03-09 (the
spring-forward morning) the encoder embeds 1741509900 (= 04:45 ET), while
the absolute instant of the floored civil time 03:45 ET is 1741506300. -/
theorem C3_dst_embed_cex :
    toCivilNY (civilSecsUTC 2025 3 9 7 47 0) = ⟨2025, 3, 9, 3, 47, 0⟩ ∧
    generateExpectedSlugLogger .BTC .m15 (civilSecsUTC 2025 3 9 7 47 0) =
      "btc-updown-15m-1741509900" ∧
    specAbsInstantNY ⟨2025, 3, 9, 3, 45, 0⟩ = 1741506300 ∧
    (1741509900 : Int) ≠ 1741506300 := by
  decide

/-- C3 amended: the m15 encoder floors the ET civil minute to the nearest
multiple of 15 (never rounds up) and emits the epoch identifier embedding
`m15SlugTs`; that embedded integer equals the absolute instant of the
floored civil time whenever the DST status probed at the instant whose UTC
reading equals the floored components agrees with the status at the
floored civil time's EST reading (true except within five civil hours
after a transition, where the embedded instant is an hour off — see the
counterexample). -/
theorem C3_m15_floor_truncation (asset : Asset) (now : Int)
    (hprobe : nyIsDST (civilSecsUTC (toCivilNY now).year (toCivilNY now).month
        (toCivilNY now).day (toCivilNY now).hour
        ((toCivilNY now).minute / 15 * 15) 0) =
      nyIsDST (civilSecsUTC (toCivilNY now).year (toCivilNY now).month
        (toCivilNY now).day (toCivilNY now).hour
        ((toCivilNY now).minute / 15 * 15) 0 + 18000)) :
    generateExpectedSlugLogger asset .m15 now =
      shortNameStr asset ++ "-updown-15m-" ++ toString (m15SlugTs now) ∧
    (floorCivil15 (toCivilNY now)).minute ≤ (toCivilNY now).minute ∧
    (toCivilNY now).minute < (floorCivil15 (toCivilNY now)).minute + 15 ∧
    (floorCivil15 (toCivilNY now)).minute % 15 = 0 ∧
    m15SlugTs now = specAbsInstantNY (floorCivil15 (toCivilNY now)) := by
  refine ⟨rfl, ?_, ?_, ?_, ?_⟩
  · unfold floorCivil15; dsimp only; omega
  · unfold floorCivil15; dsimp only; omega
  · unfold floorCivil15; dsimp only; omega
  · unfold m15SlugTs specAbsInstantNY floorCivil15
    dsimp only
    rw [hprobe]

/-- Witness for C3 at 2025-06-15 14:47:23 ET (both probes agree: EDT). -/
theorem C3_m15_floor_truncation_witness :
    generateExpectedSlugLogger .BTC .m15 (civilSecsUTC 2025 6 15 18 47 23) =
      shortNameStr .BTC ++ "-updown-15m-" ++
        toString (m15SlugTs (civilSecsUTC 2025 6 15 18 47 23)) ∧
    (floorCivil15 (toCivilNY (civilSecsUTC 2025 6 15 18 47 23))).minute ≤
      (toCivilNY (civilSecsUTC 2025 6 15 18 47 23)).minute ∧
    (toCivilNY (civilSecsUTC 2025 6 15 18 47 23)).minute <
      (floorCivil15 (toCivilNY (civilSecsUTC 2025 6 15 18 47 23))).minute +
        15 ∧
    (floorCivil15 (toCivilNY (civilSecsUTC 2025 6 15 18 47 23))).minute %
      15 = 0 ∧
    m15SlugTs (civilSecsUTC 2025 6 15 18 47 23) =
      specAbsInstantNY
        (floorCivil15 (toCivilNY (civilSecsUTC 2025 6 15 18 47 23))) :=
  C3_m15_floor_truncation .BTC (civilSecsUTC 2025 6 15 18 47 23) (by decide)

/-- C9 counterexample: a successfully decoded epoch identifier whose start
violates the m15 alignment invariant — the scrapper decodes
`btc-updown-15m-1762105020` to a start with ET civil minute 37. -/
theorem C9_unaligned_epoch_cex :
    parseSlugScrapper "btc-updown-15m-1762105020" .BTC 0 =
      some ⟨.m15, some 1762105020⟩ ∧
    (toCivilNY 1762105020).minute = 37 ∧
    ¬((37 : Nat) = 0 ∨ (37 : Nat) = 15 ∨ (37 : Nat) = 30 ∨
      (37 : Nat) = 45) := by
  decide

/-- C9 amended: the alignment invariant holds for what the *encoder*
produces and for the text grammars, not for arbitrary decoded identifiers:
(i) the instant the m15 encoder embeds always has ET minute
`⌊minute/15⌋·15 ∈ {0,15,30,45}`; (ii) a descriptor decoded under the
hourly-text grammar has ET minute 0; (iii) a descriptor decoded under the
daily-text grammar has ET time-of-day 00:00:00.  An epoch identifier
merely inherits its payload's alignment (see the counterexample). -/
theorem C9_alignment (slug : String) (asset : Asset) (now : Int) :
    ((toCivilNY (m15SlugTs now)).minute = (toCivilNY now).minute / 15 * 15 ∧
      ((toCivilNY (m15SlugTs now)).minute = 0 ∨
       (toCivilNY (m15SlugTs now)).minute = 15 ∨
       (toCivilNY (m15SlugTs now)).minute = 30 ∨
       (toCivilNY (m15SlugTs now)).minute = 45)) ∧
    (∀ mn d hraw pm m ts,
      matchUnix (shortNameStr asset).data (fullNameStr asset).data
        slug.data = none →
      matchDaily (shortNameStr asset).data (fullNameStr asset).data
        slug.data = none →
      matchH1 (shortNameStr asset).data (fullNameStr asset).data
        slug.data = some (mn, d, hraw, pm) →
      monthNumOf mn = some m →
      parseSlugLogger slug asset now = some ⟨.h1, some ts⟩ →
      (toCivilNY ts).minute = 0) ∧
    (∀ mn d m ts,
      matchUnix (shortNameStr asset).data (fullNameStr asset).data
        slug.data = none →
      matchDaily (shortNameStr asset).data (fullNameStr asset).data
        slug.data = some (mn, d) →
      monthNumOf mn = some m →
      parseSlugLogger slug asset now = some ⟨.daily, some ts⟩ →
      (toCivilNY ts).hour = 0 ∧ (toCivilNY ts).minute = 0 ∧
        (toCivilNY ts).second = 0) := by
  refine ⟨?_, ?_, ?_⟩
  · have hlt : (toCivilNY now).minute < 60 := toCivilNY_minute_lt now
    have hmin : (toCivilNY (m15SlugTs now)).minute =
        (toCivilNY now).minute / 15 * 15 := by
      rw [toCivilNY_minute]
      unfold m15SlugTs civilSecsUTC
      dsimp only
      split <;> omega
    exact ⟨hmin, by omega⟩
  · intro mn d hraw pm m ts hu hD hH hM hp
    have hred : parseSlugLogger slug asset now = some ⟨.h1,
        hourlyTextTimestamp (inferYearLogger (toCivilNY now).year
          (toCivilNY now).month (toCivilNY now).day m d) m d
          (hour24Of hraw pm)⟩ := by
      unfold parseSlugLogger parseSlugLoggerCore
      simp only [hu, hD, hH, hM]
    rw [hred] at hp
    injection hp with hp
    injection hp with _ hp
    unfold hourlyTextTimestamp fromISO at hp
    split at hp
    · injection hp with hp
      rw [toCivilNY_minute, ← hp]
      unfold civilSecsUTC
      split <;> omega
    · cases hp
  · intro mn d m ts hu hD hM hp
    have hred : parseSlugLogger slug asset now = some ⟨.daily,
        dailyTextTimestamp (inferYearLogger (toCivilNY now).year
          (toCivilNY now).month (toCivilNY now).day m d) m d⟩ := by
      unfold parseSlugLogger parseSlugLoggerCore
      simp only [hu, hD, hM]
    rw [hred] at hp
    injection hp with hp
    injection hp with _ hp
    unfold dailyTextTimestamp fromISO at hp
    rw [civilSecsUTC_midnight] at hp
    split at hp
    · injection hp with hp
      rw [← hp, toCivilNY_offset_round]
      exact civilOfSecs_day_tod _
    · cases hp

/-- Witness for C9: the encoder conjunct at 2025-06-15 14:47:23 ET, the
text-grammar conjuncts at the slugs of the C5 witness. -/
theorem C9_alignment_witness :
    (toCivilNY (m15SlugTs (civilSecsUTC 2025 6 15 18 47 23))).minute = 45 ∧
    (toCivilNY 1762275600).minute = 0 ∧
    (toCivilNY 1741150800).hour = 0 ∧ (toCivilNY 1741150800).minute = 0 ∧
    (toCivilNY 1741150800).second = 0 := by
  have ha := (C9_alignment "x" .BTC (civilSecsUTC 2025 6 15 18 47 23)).1
  have hb := (C9_alignment "bitcoin-up-or-down-november-4-12pm-et" .BTC
      (civilSecsUTC 2025 6 15 18 47 23)).2.1 "november".data 4 12 true 11
      1762275600 (by decide) (by decide) (by decide) (by decide) (by decide)
  have hc := (C9_alignment "bitcoin-up-or-down-on-march-5" .BTC
      (civilSecsUTC 2025 1 10 12 0 0)).2.2 "march".data 5 3 1741150800
      (by decide) (by decide) (by decide) (by decide)
  refine ⟨?_, hb, hc.1, hc.2.1, hc.2.2⟩
  rw [ha.1]
  decide

end BtcStudy
